import Mathlib

/-!
Verification of the WasmForge host runtime (desktop-app) against its
natural-language specification.  The Rust sources are shallowly embedded:
pure fragments become Lean functions, host I/O becomes explicit environment
records plus an emitted list of host actions, and fallible Rust code returns
`Except`/`Option`.  Rust `String` values are modelled as `List Char` where
byte indexing matters (UTF-8 byte positions) and as Lean `String` elsewhere.
Partial Rust operations that can panic (`String::truncate`, byte-range
slicing) are modelled as `Option`, with `none` standing for the panic.
-/

namespace WasmForge

/-! ## UTF-8 byte model for Rust strings

Rust strings are UTF-8; `str::len` counts bytes and slicing/truncating uses
byte offsets that must fall on character boundaries.  `charSize c` is the
UTF-8 encoded size of `c`; `byteLen` is `str::len`. -/

def charSize (c : Char) : Nat :=
  if c.val < 0x80 then 1
  else if c.val < 0x800 then 2
  else if c.val < 0x10000 then 3
  else 4

def byteLen (s : List Char) : Nat := (s.map charSize).sum

/-- UTF-8 prefix of exactly `n` bytes: `some` of the chars making up the
first `n` bytes when byte offset `n` is a character boundary within the
string, `none` otherwise (Rust panics there). -/
def takeBytes : List Char → Nat → Option (List Char)
  | _, 0 => some []
  | [], Nat.succ _ => none
  | c :: cs, Nat.succ n =>
    if charSize c ≤ n + 1 then
      (takeBytes cs (n + 1 - charSize c)).map (fun t => c :: t)
    else none

/-- Model of Rust `String::truncate(new_len)`: no-op when `new_len` is at
least the byte length, otherwise shortens to `new_len` bytes; `none` models
the panic when `new_len` is not a char boundary. -/
def truncateString (s : List Char) (new_len : Nat) : Option (List Char) :=
  if byteLen s ≤ new_len then some s else takeBytes s new_len

/-! ## Reply formatting in `handle_tool_call` (main.rs)

The `prepare_http_get` branch formats a preview from the byte-range slice
`&content[..500]` when the body is longer than 500 bytes.  That slice
panics when offset 500 is not a char boundary; the panic is modelled by
`none`. -/

def http_content_preview (content : List Char) : Option (List Char) :=
  if 500 < byteLen content then
    (takeBytes content 500).map (fun p => p ++ "...".data)
  else some content

def format_http_get_reply (url : String) (content : List Char) : Option String :=
  (http_content_preview content).map (fun p =>
    "HTTP GET successful!\nURL: " ++ url ++ "\nContent length: " ++
      toString (byteLen content) ++
      " bytes\n\nContent preview (first 500 chars):\n" ++ String.mk p)

/-! ## Shell output truncation in `execute_shell_with_validation`
(wasm_executor.rs lines 390-402)

`stdout_text.truncate(4096)` / `stderr_text.truncate(4096)` are applied to
each stream longer than 4096 bytes, then both are embedded in the reply.
`String::truncate` panics when byte 4096 is not a char boundary. -/

def shell_format_output (exit_code : Int) (stdout_raw stderr_raw : List Char) :
    Option String :=
  (truncateString stdout_raw 4096).bind (fun stdout_text =>
    (truncateString stderr_raw 4096).map (fun stderr_text =>
      "Shell execution completed.\nExit code: " ++ toString exit_code ++
        "\n\nSTDOUT (truncated):\n" ++ String.mk stdout_text ++
        "\n\nSTDERR (truncated):\n" ++ String.mk stderr_text))

/-- A 4097-byte stdout whose byte 4096 sits inside a 2-byte character. -/
def c8_failing_stdout : List Char := List.replicate 4095 'a' ++ ['é']

/-! ## Generic string helpers mirroring the Rust std operations used -/

/-- Model of `str::split(sep)`: split at every separator, keeping empty
pieces (Rust keeps them too). -/
def splitOnPred (p : Char → Bool) (s : List Char) : List (List Char) :=
  s.foldr
    (fun c acc =>
      if p c then [] :: acc
      else
        match acc with
        | h :: t => (c :: h) :: t
        | [] => [[c]])
    [[]]

/-- Model of `str::trim` for the whitespace the runtime encounters
(space, tab, carriage return, newline). -/
def trimChars (s : List Char) : List Char :=
  ((s.dropWhile Char.isWhitespace).reverse.dropWhile Char.isWhitespace).reverse

/-- Substring test, as in Rust `str::contains(&str)`. -/
def containsSlice (hay needle : List Char) : Bool :=
  (List.range (hay.length + 1)).any (fun i => needle.isPrefixOf (hay.drop i))

def strContains (hay needle : String) : Bool := containsSlice hay.data needle.data

/-- Model of `str::split_whitespace`: whitespace-separated words, empty
pieces dropped. -/
def split_whitespace (s : String) : List String :=
  ((splitOnPred Char.isWhitespace s.data).filter (fun w => w ≠ [])).map String.mk

/-- Model of `str::to_lowercase` on the ASCII range the dispatcher uses. -/
def to_lower_ascii (s : String) : String := String.mk (s.data.map Char.toLower)

/-- Rust `String::len` (UTF-8 byte count) for a Lean `String`. -/
def strBytes (s : String) : Nat := byteLen s.data

/-! ## Configuration data model (config.rs) -/

/-- Minimal JSON value universe for `serde_json::Value` as the runtime
uses it (tool schemas / parameters). -/
inductive Json where
  | null
  | bool (b : Bool)
  | num (n : Int)
  | str (s : String)
  | arr (elems : List Json)
  | obj (fields : List (String × Json))

inductive ModuleSource where
  | local (path : String)
  | http (url : String) (checksum : Option String)
  | registry (name : String) (version : Option String)

structure ToolSecurityConfig where
  allowed_commands : Option (List String)

structure ToolConfig where
  name : String
  description : Option String
  function_name : String
  parameters : Option Json
  security : Option ToolSecurityConfig

structure ModuleConfig where
  name : String
  version : Option String
  description : Option String
  source : ModuleSource
  enabled : Bool
  tools : Option (List ToolConfig)
  metadata : Option (List (String × String))

/-- Association-list lookup standing in for `HashMap::get`.  The runtime
never stores duplicate keys, so first-match lookup is faithful. -/
def alistLookup {α : Type} (l : List (String × α)) (k : String) : Option α :=
  (l.find? (fun p => p.1 == k)).map (fun p => p.2)

/-! ## Shell allow-list resolution (main.rs, `prepare_shell_exec` branch)

The handler starts from the built-in defaults, overwrites them with the
per-tool `security.allowed_commands` list when that is present and
non-empty, and afterwards overwrites the result again with the parsed
`allowed_commands_csv` metadata entry when that parses to a non-empty
list.  The metadata CSV therefore wins over the structured security
config, although the inline comments describe the opposite priority. -/

/-- Mirrors the handler's CSV parsing: split on commas, trim each piece,
keep the non-empty ones. -/
def parse_allowed_csv (csv : String) : List String :=
  (((splitOnPred (fun c => c == ',') csv.data).map
      (fun piece => String.mk (trimChars piece))).filter
    (fun s => !s.isEmpty))

def default_allowed_commands : List String := ["echo", "cat", "ls", "wc", "uname"]

def resolve_allowed_commands (module_config_opt : Option ModuleConfig) :
    List String :=
  match module_config_opt with
  | none => default_allowed_commands
  | some module_config =>
    let allowed_after_security :=
      match module_config.tools with
      | some tools =>
        match tools.find? (fun t => t.function_name == "prepare_shell_exec") with
        | some tool_cfg =>
          match tool_cfg.security with
          | some sec =>
            match sec.allowed_commands with
            | some list => if list.isEmpty then default_allowed_commands else list
            | none => default_allowed_commands
          | none => default_allowed_commands
        | none => default_allowed_commands
      | none => default_allowed_commands
    match module_config.metadata with
    | some meta =>
      match alistLookup meta "allowed_commands_csv" with
      | some csv =>
        let parsed := parse_allowed_csv csv
        if parsed.isEmpty then allowed_after_security else parsed
      | none => allowed_after_security
    | none => allowed_after_security

/-- A module config that sets both the structured security allow-list and
the metadata CSV: the source comments promise the security list wins. -/
def c1_module_config : ModuleConfig :=
  { name := "shell-module"
    version := none
    description := none
    source := ModuleSource.local "shell.wasm"
    enabled := true
    tools := some [{ name := "shell"
                     description := none
                     function_name := "prepare_shell_exec"
                     parameters := none
                     security := some { allowed_commands := some ["git"] } }]
    metadata := some [("allowed_commands_csv", "curl")] }

/-! ## Wasm execution layer (wasm_executor.rs)

An instance, its store and its linear memory form one ownership unit; the
model keeps them as a single `LoadedInstance` whose exports carry, for
function exports, the guest behaviour as a Lean function from arguments
and the current memory to a result and an updated memory (guest calls are
synchronous and non-reentrant). -/

inductive ValType where
  | i32 | i64 | f32 | f64 | v128 | funcref | externref
deriving DecidableEq

structure FuncSignature where
  params : List ValType
  results : List ValType
deriving DecidableEq

def FuncSignature.matches_pattern (sig : FuncSignature) (pattern : String) : Bool :=
  if pattern == "i32_i32_to_i32" then
    decide (sig.params = [ValType.i32, ValType.i32] ∧ sig.results = [ValType.i32])
  else if pattern == "ptr_len_to_i32" then
    decide (sig.params = [ValType.i32, ValType.i32] ∧ sig.results = [ValType.i32])
  else if pattern == "no_params_to_i32" then
    decide (sig.params = [] ∧ sig.results = [ValType.i32])
  else false

/-- Linear memory: current size in bytes and byte contents. -/
structure MemState where
  size : Nat
  data : Nat → Nat

instance : Inhabited MemState := ⟨{ size := 0, data := fun _ => 0 }⟩

/-- Mirrors `wasmtime::Memory::write(offset, bytes)`: fails (Err) when the range
exceeds the current memory size, otherwise updates the bytes. -/
def MemState.write (m : MemState) (offset : Nat) (bytes : List Nat) :
    Option MemState :=
  if offset + bytes.length ≤ m.size then
    some { m with
           data := fun j =>
             if offset ≤ j ∧ j < offset + bytes.length then bytes.getD (j - offset) 0
             else m.data j }
  else none

/-- A module export: function exports carry their signature and guest
behaviour (arguments and memory in, i32 result and memory out). -/
inductive ExternDecl where
  | func (sig : FuncSignature) (impl : List Int → MemState → Int × MemState)
  | memoryExport (m : MemState)
  | tableExport
  | globalExport

def ExternDecl.isFunc : ExternDecl → Bool
  | .func _ _ => true
  | _ => false

def exportSignature : ExternDecl → Option FuncSignature
  | .func sig _ => some sig
  | _ => none

structure LoadedInstance where
  exports : List (String × ExternDecl)

structure WasmExecutor where
  modules : List (String × LoadedInstance)

def lookupModule (ex : WasmExecutor) (module_name : String) :
    Option LoadedInstance :=
  (ex.modules.find? (fun p => p.1 == module_name)).map (fun p => p.2)

/-- Mirrors `get_module_functions`: names of the function-typed exports. -/
def get_module_functions (ex : WasmExecutor) (module_name : String) :
    Except String (List String) :=
  match lookupModule ex module_name with
  | none => Except.error ("Module not loaded: " ++ module_name)
  | some inst =>
      Except.ok ((inst.exports.filter (fun e => e.2.isFunc)).map (fun e => e.1))

/-- Mirrors `get_function_signature`: scan the exports; the first export with the
requested name that is a function yields its signature; name matches of
other extern kinds are skipped (the source loop simply continues). -/
def get_function_signature (ex : WasmExecutor) (module_name function_name : String) :
    Except String FuncSignature :=
  match lookupModule ex module_name with
  | none => Except.error ("Module not loaded: " ++ module_name)
  | some inst =>
      match inst.exports.findSome?
          (fun e => if e.1 = function_name then exportSignature e.2 else none) with
      | some sig => Except.ok sig
      | none =>
          Except.error ("Function not found in module: " ++ function_name)

/-- Mirrors `Instance::get_memory(name)`: the exported memory of that name. -/
def get_memory (inst : LoadedInstance) (name : String) : Option MemState :=
  inst.exports.findSome?
    (fun e =>
      if e.1 = name then
        match e.2 with
        | .memoryExport m => some m
        | _ => none
      else none)

/-- Mirrors `Instance::get_typed_func` at type (i32, i32) to i32: the behaviour of
the named function export when its signature is (i32, i32) → i32. -/
def get_typed_func_i32_i32 (inst : LoadedInstance) (function_name : String) :
    Option (List Int → MemState → Int × MemState) :=
  inst.exports.findSome?
    (fun e =>
      if e.1 = function_name then
        match e.2 with
        | .func sig impl =>
            if sig = ⟨[ValType.i32, ValType.i32], [ValType.i32]⟩ then some impl
            else none
        | _ => none
      else none)

/-- Store the (possibly mutated) linear memory back into the instance. -/
def set_memory (inst : LoadedInstance) (name : String) (m : MemState) :
    LoadedInstance :=
  { exports := inst.exports.map
      (fun e =>
        if e.1 = name then
          match e.2 with
          | .memoryExport _ => (e.1, ExternDecl.memoryExport m)
          | d => (e.1, d)
        else e) }

def update_module (ex : WasmExecutor) (module_name : String)
    (inst : LoadedInstance) : WasmExecutor :=
  { modules := ex.modules.map
      (fun p => if p.1 == module_name then (p.1, inst) else p) }

/-- Mirrors `call_function_ptr_len_to_i32`: look the module up, fetch the export
named "memory", write `data` at fixed offset 1024, fetch the typed
function, invoke it with `(1024, data.len())`, return its i32 result. -/
def call_function_ptr_len_to_i32 (ex : WasmExecutor)
    (module_name function_name : String) (data : List Nat) :
    Except String (Int × WasmExecutor) :=
  match lookupModule ex module_name with
  | none => Except.error ("Module not loaded: " ++ module_name)
  | some inst =>
    match get_memory inst "memory" with
    | none => Except.error ("No memory export found in module: " ++ module_name)
    | some memory =>
      match memory.write 1024 data with
      | none => Except.error "Failed to write data to WASM memory"
      | some mem_written =>
        match get_typed_func_i32_i32 inst function_name with
        | none => Except.error ("Function not found in module: " ++ function_name)
        | some impl =>
          let r := impl [1024, (data.length : Int)] mem_written
          Except.ok (r.1, update_module ex module_name
            (set_memory inst "memory" r.2))

/-! Concrete fixtures for the executor theorems: a module exporting a
2048-byte memory, a (i32, i32) → i32 function `consume` that returns the
byte stored at the pointer it receives, plus a non-function export and a
memory-less module. -/

def fixture_mem : MemState := { size := 2048, data := fun _ => 0 }

def fixture_consume : List Int → MemState → Int × MemState :=
  fun args m =>
    (Int.ofNat (m.data (args.getD 0 0).toNat) + (args.getD 1 0), m)

def fixture_instance : LoadedInstance :=
  { exports :=
      [("memory", ExternDecl.memoryExport fixture_mem),
       ("consume", ExternDecl.func ⟨[ValType.i32, ValType.i32], [ValType.i32]⟩
          fixture_consume),
       ("tick", ExternDecl.func ⟨[], [ValType.i32]⟩ (fun _ m => (1, m))),
       ("table0", ExternDecl.tableExport)] }

def fixture_no_mem_instance : LoadedInstance :=
  { exports :=
      [("consume", ExternDecl.func ⟨[ValType.i32, ValType.i32], [ValType.i32]⟩
          fixture_consume)] }

def fixture_executor : WasmExecutor :=
  { modules := [("mod-a", fixture_instance), ("mod-b", fixture_no_mem_instance)] }

/-! ## Module manager (module_manager.rs)

`load_http_module` is embedded with the ambient I/O captured in an
environment record: the outcome of reading the cached metadata JSON, the
existence of the cached `.wasm` file, the `is_cache_valid` verdict, and
the HTTP response.  The SHA-256 and MD5 digests are abstract hash
parameters (their arithmetic is irrelevant to the control flow).  The two
cache writes the function may perform are returned as an explicit list. -/

structure ModuleMetadata where
  id : String
  name : String
  version : String
  description : String
  checksum : String
  size_bytes : Nat
  cached_at : Nat
  source : ModuleSource
  wasm_path : String

/-- Mirrors `validate_wasm_module`: at least 8 bytes, magic `\0asm`, version 1. -/
def validate_wasm_module (wasm_bytes : List Nat) : Except String Unit :=
  if wasm_bytes.length < 8 then Except.error "Invalid WASM module: too short"
  else if wasm_bytes.take 4 ≠ [0x00, 0x61, 0x73, 0x6d] then
    Except.error "Invalid WASM module: missing magic bytes"
  else if (wasm_bytes.drop 4).take 4 ≠ [0x01, 0x00, 0x00, 0x00] then
    Except.error "Unsupported WASM version"
  else Except.ok ()

structure HttpFetchEnv where
  cached_metadata : Option ModuleMetadata
  cached_file_exists : Bool
  cache_valid : Bool
  status_success : Bool
  body : List Nat
  now : Nat

inductive CacheWrite where
  | wasmFile (path : String) (bytes : List Nat)
  | metaFile (path : String) (meta : ModuleMetadata)

/-- The early-return cache test of `load_http_module`: cached metadata
readable, cached bytes on disk, TTL not expired. -/
def cache_hit (env : HttpFetchEnv) : Option ModuleMetadata :=
  match env.cached_metadata with
  | some metadata =>
      if env.cached_file_exists && env.cache_valid then some metadata else none
  | none => none

def load_http_module (sha256_hex : List Nat → String) (md5_hex : String → String)
    (cache_dir : String) (config : ModuleConfig) (url : String)
    (expected_checksum : Option String) (env : HttpFetchEnv) :
    Except String ModuleMetadata × List CacheWrite :=
  let module_id := config.name ++ "_" ++ (expected_checksum.getD (md5_hex url))
  let cached_path := cache_dir ++ "/" ++ module_id ++ ".wasm"
  match cache_hit env with
  | some metadata => (Except.ok metadata, [])
  | none =>
    if !env.status_success then
      (Except.error ("HTTP error downloading module: " ++ url), [])
    else
      let wasm_bytes := env.body
      let checksum := sha256_hex wasm_bytes
      let checksum_mismatch : Bool :=
        match expected_checksum with
        | some expected => checksum != expected
        | none => false
      if checksum_mismatch then
        (Except.error ("Checksum mismatch for module: " ++ config.name), [])
      else
        match validate_wasm_module wasm_bytes with
        | Except.error e => (Except.error e, [])
        | Except.ok _ =>
          let metadata : ModuleMetadata :=
            { id := module_id
              name := config.name
              version := config.version.getD "unknown"
              description := config.description.getD ""
              checksum := checksum
              size_bytes := wasm_bytes.length
              cached_at := env.now
              source := config.source
              wasm_path := cached_path }
          (Except.ok metadata,
            [CacheWrite.wasmFile cached_path wasm_bytes,
             CacheWrite.metaFile (cache_dir ++ "/" ++ module_id ++ ".json") metadata])

/-! ## Cache TTL check (module_manager.rs, `is_cache_valid`)

`(now - metadata.cached_at) < ttl_hours * 3600` over `u64`.  The debug
semantics of the unguarded arithmetic is `Option`-valued (`none` = panic
on overflowing multiplication or underflowing subtraction); the release
semantics wraps modulo 2^64. -/

def u64_size : Nat := 2 ^ 64

def is_cache_valid_checked (now cached_at ttl_hours : Nat) : Option Bool :=
  if ttl_hours * 3600 < u64_size then
    if cached_at ≤ now then some (decide (now - cached_at < ttl_hours * 3600))
    else none
  else none

def is_cache_valid_wrapping (now cached_at ttl_hours : Nat) : Bool :=
  decide (((now + u64_size - cached_at) % u64_size) < (ttl_hours * 3600 % u64_size))

/-- Fixture for the checksum-mismatch load: cache cold, HTTP 200, a
well-formed Wasm body whose digest will not match the configured value. -/
def c3_env : HttpFetchEnv :=
  { cached_metadata := none
    cached_file_exists := false
    cache_valid := false
    status_success := true
    body := [0x00, 0x61, 0x73, 0x6d, 0x01, 0x00, 0x00, 0x00]
    now := 1700000000 }

def c3_config : ModuleConfig :=
  { name := "remote-module"
    version := some "1.0.0"
    description := none
    source := ModuleSource.http "https://example.com/m.wasm" (some "cc")
    enabled := true
    tools := none
    metadata := none }

/-! ## Capability executor (wasm_executor.rs)

Each side-effecting capability first runs the guest validator (its outcome
is the `validator : Except String Int` parameter — the result of
`call_function_ptr_len_to_i32` on the corresponding `prepare_*` export)
and proceeds only on result 1.  The host I/O a run performs is returned as
an explicit `HostAction` list; an empty list means no I/O happened. -/

inductive HostAction where
  | httpGet (url : String)
  | fsRead (path : String)
  | fsWrite (path : String) (content : String)
  | spawnProcess (program : String) (args : List String)

structure HttpGetEnv where
  status_success : Bool
  body : String

/-- Mirrors `http_get_with_validation`: guest validates the URL, then the host
issues the GET (30 s timeout, fixed user agent) and returns the body. -/
def http_get_with_validation (validator : Except String Int) (url : String)
    (env : HttpGetEnv) : Except String String × List HostAction :=
  match validator with
  | Except.error e => (Except.error e, [])
  | Except.ok v =>
    if v ≠ 1 then
      (Except.error ("URL rejected by WASM validation: " ++ url), [])
    else if !env.status_success then
      (Except.error "HTTP request failed", [HostAction.httpGet url])
    else
      (Except.ok env.body, [HostAction.httpGet url])

/-- Mirrors `read_file_with_validation`: guest validates the path, the host reads
the file (`none` = I/O error), contents over 1 MiB are rejected. -/
def read_file_with_validation (validator : Except String Int)
    (file_path : String) (file_contents : Option String) :
    Except String String × List HostAction :=
  match validator with
  | Except.error e => (Except.error e, [])
  | Except.ok v =>
    if v ≠ 1 then
      (Except.error ("File path rejected by WASM validation: " ++ file_path), [])
    else
      match file_contents with
      | none =>
          (Except.error ("Failed to read file: " ++ file_path),
           [HostAction.fsRead file_path])
      | some content =>
          if strBytes content > 1024 * 1024 then
            (Except.error "File too large", [HostAction.fsRead file_path])
          else (Except.ok content, [HostAction.fsRead file_path])

/-- Mirrors `write_file_with_validation`: guest validates the path, contents over
10 MiB are rejected before any write, then the host writes the file. -/
def write_file_with_validation (validator : Except String Int)
    (file_path content : String) (write_ok : Bool) :
    Except String String × List HostAction :=
  match validator with
  | Except.error e => (Except.error e, [])
  | Except.ok v =>
    if v ≠ 1 then
      (Except.error ("File path rejected by WASM validation for writing: "
        ++ file_path), [])
    else if strBytes content > 10 * 1024 * 1024 then
      (Except.error "Content too large", [])
    else if !write_ok then
      (Except.error ("Failed to write file: " ++ file_path),
       [HostAction.fsWrite file_path content])
    else
      (Except.ok ("Successfully wrote " ++ toString (strBytes content)
          ++ " bytes to " ++ file_path),
       [HostAction.fsWrite file_path content])

structure ShellEnv where
  spawn_ok : Bool
  timed_out : Bool
  exit_code : Int
  stdout : List Char
  stderr : List Char

/-- Mirrors `execute_shell_with_validation`: guest validates the raw command text;
the host splits on whitespace, enforces the allow-list on the first token,
spawns the program with the remaining tokens, races a 10-second timeout,
and formats the reply with both streams truncated to 4096 bytes.  The
outer `Option` is `none` when the final truncation panics. -/
def execute_shell_with_validation (validator : Except String Int)
    (command : String) (allowed_commands : List String) (env : ShellEnv) :
    Option (Except String String) × List HostAction :=
  match validator with
  | Except.error e => (some (Except.error e), [])
  | Except.ok v =>
    if v ≠ 1 then
      (some (Except.error "Command rejected by WASM validation"), [])
    else
      match split_whitespace command with
      | [] => (some (Except.error "Empty command"), [])
      | program :: rest =>
        if !(allowed_commands.any (fun c => c == program)) then
          (some (Except.error ("Command not allowed: " ++ program)), [])
        else
          let acts := [HostAction.spawnProcess program rest]
          if !env.spawn_ok then
            (some (Except.error ("Failed to spawn command: " ++ program)), acts)
          else if env.timed_out then
            (some (Except.error "Command timed out after 10s"), acts)
          else
            match shell_format_output env.exit_code env.stdout env.stderr with
            | none => (none, acts)
            | some reply => (some (Except.ok reply), acts)

/-! ## Tool discovery (tool_discovery.rs) -/

structure DiscoveredTool where
  name : String
  module_name : String
  function_name : String
  description : String
  schema : Json
  signature : FuncSignature
  pattern : String

/-- Mirrors `load_tool_configs`: per module, the tool configs are stored in a map
keyed by the config's `name` field (not by `function_name`). -/
def load_tool_configs (modules : List ModuleConfig) :
    List (String × List (String × ToolConfig)) :=
  modules.foldl
    (fun acc module =>
      match module.tools with
      | some tools =>
          acc ++ [(module.name, tools.map (fun t => (t.name, t)))]
      | none => acc)
    []

def generate_description (module_name function_name default : String) : String :=
  let description :=
    if function_name == "add" then "Add two numbers using WebAssembly"
    else if function_name == "subtract" || function_name == "sub" then
      "Subtract two numbers using WebAssembly"
    else if function_name == "multiply" || function_name == "mul" then
      "Multiply two numbers using WebAssembly"
    else if function_name == "divide" || function_name == "div" then
      "Divide two numbers using WebAssembly"
    else if function_name == "validate_url" then
      "Validate URL format using WebAssembly"
    else if function_name == "process_response" then
      "Process HTTP response using WebAssembly"
    else if function_name == "prepare_http_get" then
      "Fetch content from a URL using async HTTP GET with WASM validation"
    else if function_name == "prepare_file_read" then
      "Read file content with WASM path validation"
    else if function_name == "prepare_file_write" then
      "Write content to file with WASM path validation"
    else if function_name == "prepare_shell_exec" then
      "Execute a simple shell command with WASM validation"
    else if function_name == "prepare_recommend_mcps" then
      "Recommend relevant MCP tools based on a task description"
    else if function_name == "hash" || function_name == "sha256" then
      "Calculate hash of input data"
    else if function_name == "encrypt" then "Encrypt data using WebAssembly"
    else if function_name == "decrypt" then "Decrypt data using WebAssembly"
    else if function_name == "compress" then "Compress data using WebAssembly"
    else if function_name == "decompress" then "Decompress data using WebAssembly"
    else if strContains function_name "validate" then
      "Validate input data using WebAssembly"
    else if strContains function_name "process" then
      "Process input data using WebAssembly"
    else if strContains function_name "parse" then
      "Parse input data using WebAssembly"
    else if strContains function_name "format" then
      "Format input data using WebAssembly"
    else default
  description ++ " (from module: " ++ module_name ++ ")"

def string_property (desc : String) : Json :=
  Json.obj [("type", Json.str "string"), ("description", Json.str desc)]

def schema_for_special (function_name : String) : Json :=
  if function_name == "prepare_http_get" then
    Json.obj [("type", Json.str "object"),
      ("properties", Json.obj
        [("url", string_property "The URL to fetch via HTTP GET request")]),
      ("required", Json.arr [Json.str "url"])]
  else if function_name == "prepare_file_read" then
    Json.obj [("type", Json.str "object"),
      ("properties", Json.obj
        [("path", string_property "The file path to read")]),
      ("required", Json.arr [Json.str "path"])]
  else if function_name == "prepare_file_write" then
    Json.obj [("type", Json.str "object"),
      ("properties", Json.obj
        [("path", string_property "The file path to write to"),
         ("content", string_property "The content to write to the file")]),
      ("required", Json.arr [Json.str "path", Json.str "content"])]
  else if function_name == "prepare_shell_exec" then
    Json.obj [("type", Json.str "object"),
      ("properties", Json.obj
        [("command", string_property
            "The shell command to execute (validated by WASM and host)")]),
      ("required", Json.arr [Json.str "command"])]
  else if function_name == "prepare_recommend_mcps" then
    Json.obj [("type", Json.str "object"),
      ("properties", Json.obj
        [("task", string_property
            "Describe your task and we will recommend suitable tools")]),
      ("required", Json.arr [Json.str "task"])]
  else
    Json.obj [("type", Json.str "object"),
      ("properties", Json.obj [("data", string_property "Data to process")]),
      ("required", Json.arr [Json.str "data"])]

def default_for_special (function_name : String) : String :=
  if function_name == "prepare_http_get" then
    "Fetch content from a URL using async HTTP GET with WASM validation"
  else if function_name == "prepare_file_read" then
    "Read file content with WASM path validation"
  else if function_name == "prepare_file_write" then
    "Write content to file with WASM path validation"
  else if function_name == "prepare_shell_exec" then
    "Execute a simple shell command with WASM validation"
  else if function_name == "prepare_recommend_mcps" then
    "Recommend relevant MCP tools based on a task description"
  else "Processes string data and returns an integer status"

def schema_i32_i32 : Json :=
  Json.obj [("type", Json.str "object"),
    ("properties", Json.obj
      [("a", Json.obj [("type", Json.str "number"),
          ("description", Json.str "First integer parameter")]),
       ("b", Json.obj [("type", Json.str "number"),
          ("description", Json.str "Second integer parameter")])]),
    ("required", Json.arr [Json.str "a", Json.str "b"])]

def schema_no_params : Json :=
  Json.obj [("type", Json.str "object"),
    ("properties", Json.obj []),
    ("additionalProperties", Json.bool false)]

/-- Mirrors the underscore test (the source's second double-underscore test
is subsumed by the first). -/
def starts_with_underscore (s : String) : Bool :=
  match s.data with
  | c :: _ => c == '_'
  | [] => false

/-- Mirrors the tool-name cleanup: hyphens become underscores. -/
def replace_hyphens (s : String) : String :=
  String.mk (s.data.map (fun c => if c == '-' then '_' else c))

/-- Mirrors `analyze_function`: classify one export into a pattern with an
auto-generated schema and description, apply any configured override
(looked up by function name in the name-keyed config map), and derive the
public tool name. -/
def analyze_function (tool_configs : List (String × List (String × ToolConfig)))
    (module_name function_name : String) (signature : FuncSignature) :
    Option DiscoveredTool :=
  if starts_with_underscore function_name then none
  else
    let special :=
      function_name == "validate_url" || function_name == "process_response"
        || function_name == "prepare_http_get"
        || function_name == "prepare_file_read"
        || function_name == "prepare_file_write"
        || function_name == "prepare_shell_exec"
        || function_name == "prepare_recommend_mcps"
    let classified : Option (String × Json × String) :=
      if special && signature.matches_pattern "ptr_len_to_i32" then
        some ("ptr_len_to_i32", schema_for_special function_name,
          generate_description module_name function_name
            (default_for_special function_name))
      else if signature.matches_pattern "i32_i32_to_i32" then
        some ("i32_i32_to_i32", schema_i32_i32,
          generate_description module_name function_name
            "Takes two integers and returns an integer")
      else if signature.matches_pattern "no_params_to_i32" then
        some ("no_params_to_i32", schema_no_params,
          generate_description module_name function_name
            "Takes no parameters and returns an integer")
      else none
    match classified with
    | none => none
    | some (pattern, schema, description) =>
      let overridden :=
        match alistLookup tool_configs module_name with
        | some module_tools =>
          match alistLookup module_tools function_name with
          | some tool_config =>
              (tool_config.description.getD description,
               tool_config.parameters.getD schema)
          | none => (description, schema)
        | none => (description, schema)
      let tool_name :=
        if module_name == "test-module" then function_name
        else replace_hyphens module_name ++ "_" ++ function_name
      some { name := tool_name
             module_name := module_name
             function_name := function_name
             description := overridden.1
             schema := overridden.2
             signature := signature
             pattern := pattern }

/-- A tool config describing guest export `add` under the public override
name `custom_add`: per the spec its description must override the
auto-generated one for `add`. -/
def c2_tool_config : ToolConfig :=
  { name := "custom_add"
    description := some "Custom add description"
    function_name := "add"
    parameters := none
    security := none }

def c2_modules : List ModuleConfig :=
  [{ name := "calcmod"
     version := none
     description := none
     source := ModuleSource.local "calc.wasm"
     enabled := true
     tools := some [c2_tool_config]
     metadata := none }]

def sig_i32_i32 : FuncSignature := ⟨[ValType.i32, ValType.i32], [ValType.i32]⟩

/-! ## Recommendation capability (main.rs, `prepare_recommend_mcps`) -/

structure MethodRef where
  name : String
  inputSchema : Json

structure RecCategory where
  name : String
  description : String
  methods : List MethodRef

def has_fn (tools : List DiscoveredTool) (fname : String) : Bool :=
  tools.any (fun t => t.function_name == fname)

def collect_methods (tools : List DiscoveredTool) (fnames : List String) :
    List MethodRef :=
  (tools.filter (fun t => fnames.contains t.function_name)).map
    (fun t => { name := t.name, inputSchema := t.schema })

def contains_any (query : String) (words : List String) : Bool :=
  words.any (fun w => strContains query w)

def web_browser_category (tools : List DiscoveredTool) : RecCategory :=
  { name := "web_browser"
    description := "Fetch content via HTTP GET with WASM validation"
    methods := collect_methods tools ["prepare_http_get"] }

def file_ops_category (tools : List DiscoveredTool) : RecCategory :=
  { name := "file_ops"
    description := "Read and write files with WASM path validation"
    methods := collect_methods tools ["prepare_file_read", "prepare_file_write"] }

def shell_executor_category (tools : List DiscoveredTool) : RecCategory :=
  { name := "shell_executor"
    description := "Execute simple whitelisted shell commands with WASM validation"
    methods := collect_methods tools ["prepare_shell_exec"] }

/-- The category construction of the recommendation handler: keyword
matching on the lowercased task, with the all-present fallback when no
keyword category fires. -/
def build_recommendations (tools : List DiscoveredTool) (task : String) :
    List RecCategory :=
  let query := to_lower_ascii task
  let cats :=
    (if has_fn tools "prepare_http_get"
        && contains_any query
          ["download", "fetch", "http", "https", "url", "get", "retrieve",
           "request"] then
      [web_browser_category tools]
    else [])
    ++ (if (has_fn tools "prepare_file_read" || has_fn tools "prepare_file_write")
          && contains_any query
            ["save", "file", "write", "read", "open", "load", "store"] then
      [file_ops_category tools]
    else [])
    ++ (if has_fn tools "prepare_shell_exec"
          && contains_any query
            ["shell", "bash", "command", "execute", "run", "ls", "echo", "cat",
             "wc", "uname", "terminal"] then
      [shell_executor_category tools]
    else [])
  if cats.isEmpty then
    (if has_fn tools "prepare_http_get" then [web_browser_category tools] else [])
    ++ (if has_fn tools "prepare_file_read" || has_fn tools "prepare_file_write"
        then [file_ops_category tools] else [])
    ++ (if has_fn tools "prepare_shell_exec" then [shell_executor_category tools]
        else [])
  else cats

/-- The `prepare_recommend_mcps` branch of `handle_tool_call`: guest
validation first, then recommendation building over the discovered set. -/
def handle_recommend (validator : Except String Int)
    (tools : List DiscoveredTool) (task : String) :
    Except String (List RecCategory) :=
  match validator with
  | Except.error e => Except.error e
  | Except.ok v =>
      if v ≠ 1 then Except.error "Task rejected by WASM validation"
      else Except.ok (build_recommendations tools task)

def c5_tool (fname : String) : DiscoveredTool :=
  { name := "mod_" ++ fname
    module_name := "mod"
    function_name := fname
    description := ""
    schema := Json.null
    signature := sig_i32_i32
    pattern := "ptr_len_to_i32" }

def c5_tools : List DiscoveredTool :=
  [c5_tool "prepare_http_get", c5_tool "prepare_file_read",
   c5_tool "prepare_file_write", c5_tool "prepare_shell_exec"]

theorem charSize_pos (c : Char) : 0 < charSize c := by
  unfold charSize
  split
  · exact Nat.zero_lt_one
  split
  · exact Nat.zero_lt_two
  split
  · omega
  · omega

theorem byteLen_nil : byteLen [] = 0 := rfl

theorem byteLen_cons (c : Char) (s : List Char) :
    byteLen (c :: s) = charSize c + byteLen s := by
  simp [byteLen]

theorem byteLen_append (s t : List Char) :
    byteLen (s ++ t) = byteLen s + byteLen t := by
  simp [byteLen]

theorem byteLen_replicate (n : Nat) (c : Char) :
    byteLen (List.replicate n c) = n * charSize c := by
  induction n with
  | zero => simp [byteLen]
  | succ k ih =>
      rw [List.replicate_succ, byteLen_cons, ih, Nat.succ_mul]
      omega

theorem charSize_a : charSize 'a' = 1 := by decide

theorem charSize_eacute : charSize 'é' = 2 := by decide

/-- Consuming an all-ASCII replicate prefix byte by byte. -/
theorem takeBytes_replicate_append (c : Char) (hc : charSize c = 1) :
    ∀ (n j : Nat) (t : List Char),
      takeBytes (List.replicate n c ++ t) (n + j) =
        (takeBytes t j).map (fun u => List.replicate n c ++ u) := by
  intro n
  induction n with
  | zero =>
      intro j t
      simp [Option.map_id']
  | succ k ih =>
      intro j t
      rw [List.replicate_succ, List.cons_append]
      have hkj : k + 1 + j = Nat.succ (k + j) := by omega
      rw [hkj]
      show (if charSize c ≤ k + j + 1 then
              (takeBytes (List.replicate k c ++ t) (k + j + 1 - charSize c)).map
                (fun u => c :: u)
            else none) = _
      rw [hc]
      have hle : 1 ≤ k + j + 1 := by omega
      rw [if_pos hle]
      have hsub : k + j + 1 - 1 = k + j := by omega
      rw [hsub, ih j t, Option.map_map]
      rcases takeBytes t j with _ | u
      · rfl
      · simp [List.replicate_succ, Function.comp]

theorem takeBytes_single_eacute : takeBytes ['é'] 1 = none := by
  show (if charSize 'é' ≤ 0 + 1 then
          (takeBytes [] (0 + 1 - charSize 'é')).map (fun t => 'é' :: t)
        else none) = none
  rw [charSize_eacute]
  norm_num

theorem byteLen_c8_failing_stdout : byteLen c8_failing_stdout = 4097 := by
  rw [c8_failing_stdout, byteLen_append, byteLen_replicate, charSize_a]
  show 4095 * 1 + byteLen ['é'] = 4097
  rw [byteLen_cons, charSize_eacute, byteLen_nil]

theorem takeBytes_c8_failing_stdout : takeBytes c8_failing_stdout 4096 = none := by
  rw [c8_failing_stdout]
  have h := takeBytes_replicate_append 'a' charSize_a 4095 1 ['é']
  rw [show (4095 + 1 : Nat) = 4096 from rfl] at h
  rw [h, takeBytes_single_eacute]
  rfl

/-- C9: the HTTP GET (and legacy fetch) reply formatter slices
`content[..500]` whenever the body exceeds 500 bytes, so a reply is
produced exactly when the body fits in 500 bytes or byte offset 500 is a
character boundary; a body with a multi-byte character straddling offset
500 makes the formatter panic (modelled as `none`) instead of replying. -/
theorem c9_http_preview_slice_not_total :
    (∀ (url : String) (content : List Char),
        (format_http_get_reply url content).isSome = true ↔
          (byteLen content ≤ 500 ∨ (takeBytes content 500).isSome = true))
    ∧ format_http_get_reply "https://example.com/"
        (List.replicate 499 'a' ++ ['é']) = none := by
  constructor
  · intro url content
    unfold format_http_get_reply http_content_preview
    by_cases h : 500 < byteLen content
    · rw [if_pos h]
      rcases htb : takeBytes content 500 with _ | p
      · simp [htb]
        omega
      · simp [htb]
    · rw [if_neg h]
      simp
      omega
  · have hb : byteLen (List.replicate 499 'a' ++ ['é']) = 501 := by
      rw [byteLen_append, byteLen_replicate, charSize_a]
      show 499 * 1 + byteLen ['é'] = 501
      rw [byteLen_cons, charSize_eacute, byteLen_nil]
    have ht : takeBytes (List.replicate 499 'a' ++ ['é']) 500 = none := by
      have h := takeBytes_replicate_append 'a' charSize_a 499 1 ['é']
      rw [show (499 + 1 : Nat) = 500 from rfl] at h
      rw [h, takeBytes_single_eacute]
      rfl
    unfold format_http_get_reply http_content_preview
    rw [hb, if_pos (by norm_num), ht]
    rfl

/-- C8: evaluating the shell reply formatter on a captured stdout of 4095
ASCII bytes followed by one 2-byte character shows the truncation step
panicking (`none`): byte 4096 falls inside the final character, so
`String::truncate(4096)` aborts instead of embedding a bounded reply. -/
theorem c8_shell_truncation_panics :
    shell_format_output 0 c8_failing_stdout [] = none
      ∧ 4096 < byteLen c8_failing_stdout := by
  constructor
  · unfold shell_format_output truncateString
    rw [byteLen_c8_failing_stdout]
    rw [if_neg (by norm_num), takeBytes_c8_failing_stdout]
    rfl
  · rw [byteLen_c8_failing_stdout]
    norm_num

/-- C1: evaluating the allow-list resolution on a module that configures
both a non-empty per-tool `security.allowed_commands` (`["git"]`) and a
non-empty metadata `allowed_commands_csv` (`"curl"`): the code enforces
`["curl"]`, i.e. the metadata CSV overrides the per-tool security list,
contrary to the documented priority security → metadata → defaults. -/
theorem c1_metadata_overrides_security :
    resolve_allowed_commands (some c1_module_config) = ["curl"]
      ∧ (["curl"] : List String) ≠ ["git"]
      ∧ ((c1_module_config.tools.getD []).find?
            (fun t => t.function_name == "prepare_shell_exec")).bind
          (fun t => t.security.bind (fun s => s.allowed_commands))
          = some ["git"] := by
  refine ⟨?_, by decide, ?_⟩
  · rfl
  · rfl

/-- The signature scan succeeds exactly when the name occurs among the
function-typed export names. -/
theorem findSome_signature_isSome_iff (exports : List (String × ExternDecl))
    (f : String) :
    (exports.findSome?
        (fun e => if e.1 = f then exportSignature e.2 else none)).isSome = true
      ↔ f ∈ (exports.filter (fun e => e.2.isFunc)).map (fun e => e.1) := by
  induction exports with
  | nil => simp [List.findSome?]
  | cons e t ih =>
      obtain ⟨n, d⟩ := e
      by_cases hn : n = f
      · subst hn
        cases d with
        | func sig impl =>
            simp [List.findSome?, exportSignature, ExternDecl.isFunc]
        | memoryExport m =>
            simpa [List.findSome?, exportSignature, ExternDecl.isFunc] using ih
        | tableExport =>
            simpa [List.findSome?, exportSignature, ExternDecl.isFunc] using ih
        | globalExport =>
            simpa [List.findSome?, exportSignature, ExternDecl.isFunc] using ih
      · have hn' : ¬(f = n) := fun h => hn h.symm
        cases d with
        | func sig impl =>
            simpa [List.findSome?, exportSignature, ExternDecl.isFunc, hn, hn']
              using ih
        | memoryExport m =>
            simpa [List.findSome?, exportSignature, ExternDecl.isFunc, hn] using ih
        | tableExport =>
            simpa [List.findSome?, exportSignature, ExternDecl.isFunc, hn] using ih
        | globalExport =>
            simpa [List.findSome?, exportSignature, ExternDecl.isFunc, hn] using ih

/-- C7: `get_function_signature(m, f)` succeeds exactly when `f` appears
in the list returned by `get_module_functions(m)`; in particular both
agree for every loaded module (and both fail for unloaded ones). -/
theorem c7_signature_iff_listed (ex : WasmExecutor) (m f : String) :
    (get_function_signature ex m f).isOk = true
      ↔ (∃ l, get_module_functions ex m = Except.ok l ∧ f ∈ l) := by
  rcases h : lookupModule ex m with _ | inst
  · simp [get_function_signature, get_module_functions, h, Except.isOk,
      Except.toBool]
  · have hiff := findSome_signature_isSome_iff inst.exports f
    rcases hfs : inst.exports.findSome?
        (fun e => if e.1 = f then exportSignature e.2 else none) with _ | sig
    · rw [hfs] at hiff
      simp only [Option.isSome_none, Bool.false_eq_true, false_iff] at hiff
      simp [get_function_signature, get_module_functions, h, hfs, Except.isOk,
        Except.toBool, hiff]
    · rw [hfs] at hiff
      simp only [Option.isSome_some, true_iff] at hiff
      simp [get_function_signature, get_module_functions, h, hfs, Except.isOk,
        Except.toBool, hiff]

/-- C6: `call_function_ptr_len_to_i32` fails when the module exports no
memory named "memory"; otherwise (memory present, the 1024-offset write in
bounds, `f` exported at type (i32, i32) → i32) the data is written into
linear memory at offset 1024, the typed function is invoked with
`(1024, data.len())` on that memory, and its i32 result is returned. -/
theorem c6_call_ptr_len_to_i32_spec :
    (∀ (ex : WasmExecutor) (m f : String) (data : List Nat)
        (inst : LoadedInstance),
        lookupModule ex m = some inst →
        get_memory inst "memory" = none →
        ∃ e, call_function_ptr_len_to_i32 ex m f data = Except.error e)
    ∧ (∀ (ex : WasmExecutor) (m f : String) (data : List Nat)
        (inst : LoadedInstance) (memory : MemState)
        (impl : List Int → MemState → Int × MemState),
        lookupModule ex m = some inst →
        get_memory inst "memory" = some memory →
        get_typed_func_i32_i32 inst f = some impl →
        1024 + data.length ≤ memory.size →
        ∃ mem_written,
          memory.write 1024 data = some mem_written
          ∧ (∀ i, i < data.length → mem_written.data (1024 + i) = data.getD i 0)
          ∧ call_function_ptr_len_to_i32 ex m f data =
              Except.ok ((impl [1024, (data.length : Int)] mem_written).1,
                update_module ex m (set_memory inst "memory"
                  (impl [1024, (data.length : Int)] mem_written).2))) := by
  constructor
  · intro ex m f data inst hm hmem
    refine ⟨"No memory export found in module: " ++ m, ?_⟩
    simp only [call_function_ptr_len_to_i32, hm, hmem]
  · intro ex m f data inst memory impl hm hmem htf hfit
    have hwrite : memory.write 1024 data =
        some { memory with
               data := fun j =>
                 if 1024 ≤ j ∧ j < 1024 + data.length then data.getD (j - 1024) 0
                 else memory.data j } := by
      unfold MemState.write
      rw [if_pos hfit]
    refine ⟨_, hwrite, ?_, ?_⟩
    · intro i hi
      simp only []
      rw [if_pos ⟨Nat.le_add_right 1024 i, by omega⟩]
      have hsub : 1024 + i - 1024 = i := by omega
      rw [hsub]
    · simp only [call_function_ptr_len_to_i32, hm, hmem, hwrite, htf]

/-- Witness for C6: the memory-less module fails, and on the module with a
2048-byte memory, data `[7, 8, 9]` is written at 1024 and `consume` is
invoked with `(1024, 3)`. -/
theorem c6_call_witness :
    (∃ e, call_function_ptr_len_to_i32 fixture_executor "mod-b" "consume" [7]
        = Except.error e)
    ∧ (∃ mem_written,
        fixture_mem.write 1024 [7, 8, 9] = some mem_written
        ∧ (∀ i, i < [7, 8, 9].length →
            mem_written.data (1024 + i) = [7, 8, 9].getD i 0)
        ∧ call_function_ptr_len_to_i32 fixture_executor "mod-a" "consume" [7, 8, 9] =
            Except.ok ((fixture_consume [1024, ([7, 8, 9].length : Int)] mem_written).1,
              update_module fixture_executor "mod-a" (set_memory fixture_instance
                "memory"
                (fixture_consume [1024, ([7, 8, 9].length : Int)] mem_written).2))) :=
  ⟨c6_call_ptr_len_to_i32_spec.1 fixture_executor "mod-b" "consume" [7]
      fixture_no_mem_instance rfl rfl,
   c6_call_ptr_len_to_i32_spec.2 fixture_executor "mod-a" "consume" [7, 8, 9]
      fixture_instance fixture_mem fixture_consume rfl rfl rfl (by decide)⟩

/-- C3: an HTTP module load that misses the cache and downloads bytes
whose SHA-256 differs from the configured checksum returns an error and
performs no cache write at all: neither the `<id>.wasm` bytes file nor the
`<id>.json` metadata file is emitted. -/
theorem c3_checksum_mismatch_writes_nothing
    (sha256_hex : List Nat → String) (md5_hex : String → String)
    (cache_dir : String) (config : ModuleConfig) (url : String)
    (expected : String) (env : HttpFetchEnv)
    (hmiss : cache_hit env = none)
    (hne : sha256_hex env.body ≠ expected) :
    ∃ e, load_http_module sha256_hex md5_hex cache_dir config url
        (some expected) env = (Except.error e, []) := by
  by_cases hs : env.status_success
  · refine ⟨"Checksum mismatch for module: " ++ config.name, ?_⟩
    simp [load_http_module, hmiss, hs, hne]
  · refine ⟨"HTTP error downloading module: " ++ url, ?_⟩
    simp [load_http_module, hmiss, hs]

/-- Witness for C3: concrete hash functions, a cold cache and an expected
checksum `"cc"` against computed `"aa"`: the load errors and the write
list is empty. -/
theorem c3_checksum_mismatch_witness :
    ∃ e, load_http_module (fun _ => "aa") (fun _ => "bb") "cache"
        c3_config "https://example.com/m.wasm" (some "cc") c3_env
        = (Except.error e, []) :=
  c3_checksum_mismatch_writes_nothing (fun _ => "aa") (fun _ => "bb") "cache"
    c3_config "https://example.com/m.wasm" "cc" c3_env rfl (by decide)

/-- C10: the TTL check computes `now - cached_at` by unguarded u64
subtraction.  With `cached_at ≤ now` (and the TTL product in range) it
returns exactly the comparison `(now - cached_at) < ttl_hours * 3600`;
with `cached_at > now` the checked (debug) semantics aborts, and the
wrapping (release) semantics reports the entry as expired whenever the
TTL does not reach the wrapped difference. -/
theorem c10_cache_validity_subtraction :
    (∀ now cached_at ttl_hours : Nat,
        cached_at ≤ now → ttl_hours * 3600 < u64_size →
        is_cache_valid_checked now cached_at ttl_hours
          = some (decide (now - cached_at < ttl_hours * 3600)))
    ∧ (∀ now cached_at ttl_hours : Nat,
        now < cached_at →
        is_cache_valid_checked now cached_at ttl_hours = none)
    ∧ (∀ now cached_at ttl_hours : Nat,
        now < cached_at → cached_at < u64_size →
        ttl_hours * 3600 ≤ u64_size - (cached_at - now) →
        is_cache_valid_wrapping now cached_at ttl_hours = false) := by
  refine ⟨?_, ?_, ?_⟩
  · intro now cached_at ttl_hours h1 h2
    unfold is_cache_valid_checked
    rw [if_pos h2, if_pos h1]
  · intro now cached_at ttl_hours h1
    unfold is_cache_valid_checked
    by_cases h2 : ttl_hours * 3600 < u64_size
    · rw [if_pos h2, if_neg (by omega)]
    · rw [if_neg h2]
  · intro now cached_at ttl_hours h1 h2 h3
    unfold is_cache_valid_wrapping
    have hu : 0 < u64_size := by
      unfold u64_size
      positivity
    have hv : now + u64_size - cached_at = u64_size - (cached_at - now) := by
      omega
    have hlt : u64_size - (cached_at - now) < u64_size := by omega
    rw [hv, Nat.mod_eq_of_lt hlt, Nat.mod_eq_of_lt (lt_of_le_of_lt h3 hlt)]
    simpa using Nat.not_lt.mpr h3

/-- Witness for C10: a fresh entry inside the TTL evaluates to the TTL
comparison; a `cached_at` in the future aborts the checked semantics and
expires the wrapping semantics. -/
theorem c10_cache_validity_witness :
    is_cache_valid_checked 1700000100 1700000000 24
        = some (decide ((1700000100 - 1700000000 : Nat) < 24 * 3600))
    ∧ is_cache_valid_checked 100 200 24 = none
    ∧ is_cache_valid_wrapping 100 200 24 = false :=
  ⟨c10_cache_validity_subtraction.1 1700000100 1700000000 24 (by norm_num)
      (by norm_num [u64_size]),
   c10_cache_validity_subtraction.2.1 100 200 24 (by norm_num),
   c10_cache_validity_subtraction.2.2 100 200 24 (by norm_num)
      (by norm_num [u64_size]) (by norm_num [u64_size])⟩

/-- C4: for each side-effecting capability (HTTP GET, file read, file
write, subprocess), a guest validator result other than 1 yields an error
with an empty host-action list (no I/O), and any successful run implies
the validator was invoked and returned exactly 1. -/
theorem c4_dual_validation :
    (∀ (v : Int) (url : String) (env : HttpGetEnv), v ≠ 1 →
        http_get_with_validation (Except.ok v) url env
          = (Except.error ("URL rejected by WASM validation: " ++ url), []))
    ∧ (∀ (validator : Except String Int) (url : String) (env : HttpGetEnv)
        (r : String),
        (http_get_with_validation validator url env).1 = Except.ok r →
        validator = Except.ok 1)
    ∧ (∀ (v : Int) (file_path : String) (contents : Option String), v ≠ 1 →
        read_file_with_validation (Except.ok v) file_path contents
          = (Except.error ("File path rejected by WASM validation: "
              ++ file_path), []))
    ∧ (∀ (validator : Except String Int) (file_path : String)
        (contents : Option String) (r : String),
        (read_file_with_validation validator file_path contents).1
          = Except.ok r →
        validator = Except.ok 1)
    ∧ (∀ (v : Int) (file_path content : String) (write_ok : Bool), v ≠ 1 →
        write_file_with_validation (Except.ok v) file_path content write_ok
          = (Except.error ("File path rejected by WASM validation for writing: "
              ++ file_path), []))
    ∧ (∀ (validator : Except String Int) (file_path content : String)
        (write_ok : Bool) (r : String),
        (write_file_with_validation validator file_path content write_ok).1
          = Except.ok r →
        validator = Except.ok 1)
    ∧ (∀ (v : Int) (command : String) (allowed : List String) (env : ShellEnv),
        v ≠ 1 →
        execute_shell_with_validation (Except.ok v) command allowed env
          = (some (Except.error "Command rejected by WASM validation"), []))
    ∧ (∀ (validator : Except String Int) (command : String)
        (allowed : List String) (env : ShellEnv) (r : String),
        (execute_shell_with_validation validator command allowed env).1
          = some (Except.ok r) →
        validator = Except.ok 1) := by
  refine ⟨?_, ?_, ?_, ?_, ?_, ?_, ?_, ?_⟩
  · intro v url env hv
    simp [http_get_with_validation, hv]
  · intro validator url env r h
    cases validator with
    | error e => simp [http_get_with_validation] at h
    | ok v =>
        by_cases hv : v = 1
        · rw [hv]
        · exfalso
          simp [http_get_with_validation, hv] at h
  · intro v file_path contents hv
    simp [read_file_with_validation, hv]
  · intro validator file_path contents r h
    cases validator with
    | error e => simp [read_file_with_validation] at h
    | ok v =>
        by_cases hv : v = 1
        · rw [hv]
        · exfalso
          simp [read_file_with_validation, hv] at h
  · intro v file_path content write_ok hv
    simp [write_file_with_validation, hv]
  · intro validator file_path content write_ok r h
    cases validator with
    | error e => simp [write_file_with_validation] at h
    | ok v =>
        by_cases hv : v = 1
        · rw [hv]
        · exfalso
          simp [write_file_with_validation, hv] at h
  · intro v command allowed env hv
    simp [execute_shell_with_validation, hv]
  · intro validator command allowed env r h
    cases validator with
    | error e => simp [execute_shell_with_validation] at h
    | ok v =>
        by_cases hv : v = 1
        · rw [hv]
        · exfalso
          simp [execute_shell_with_validation, hv] at h

/-- Witness for C4: every rejection branch evaluated at validator result 0
(or 2), plus each success direction applied to a concrete successful run. -/
theorem c4_dual_validation_witness :
    http_get_with_validation (Except.ok 0) "https://x/" ⟨true, "hi"⟩
        = (Except.error ("URL rejected by WASM validation: " ++ "https://x/"), [])
    ∧ read_file_with_validation (Except.ok 2) "/tmp/f" (some "hi")
        = (Except.error ("File path rejected by WASM validation: "
            ++ "/tmp/f"), [])
    ∧ write_file_with_validation (Except.ok 0) "/tmp/f" "hi" true
        = (Except.error ("File path rejected by WASM validation for writing: "
            ++ "/tmp/f"), [])
    ∧ execute_shell_with_validation (Except.ok 0) "echo hi"
        default_allowed_commands ⟨true, false, 0, [], []⟩
        = (some (Except.error "Command rejected by WASM validation"), [])
    ∧ (Except.ok 1 : Except String Int) = Except.ok 1
    ∧ (Except.ok 1 : Except String Int) = Except.ok 1
    ∧ (Except.ok 1 : Except String Int) = Except.ok 1
    ∧ (Except.ok 1 : Except String Int) = Except.ok 1 :=
  ⟨c4_dual_validation.1 0 "https://x/" ⟨true, "hi"⟩ (by decide),
   c4_dual_validation.2.2.1 2 "/tmp/f" (some "hi") (by decide),
   c4_dual_validation.2.2.2.2.1 0 "/tmp/f" "hi" true (by decide),
   c4_dual_validation.2.2.2.2.2.2.1 0 "echo hi" default_allowed_commands
     ⟨true, false, 0, [], []⟩ (by decide),
   c4_dual_validation.2.1 (Except.ok 1) "https://x/" ⟨true, "hi"⟩ "hi" rfl,
   c4_dual_validation.2.2.2.1 (Except.ok 1) "/tmp/f" (some "hi") "hi" rfl,
   c4_dual_validation.2.2.2.2.2.1 (Except.ok 1) "/tmp/f" "hi" true _ rfl,
   c4_dual_validation.2.2.2.2.2.2.2 (Except.ok 1) "echo hi"
     default_allowed_commands ⟨true, false, 0, [], []⟩ _ rfl⟩

/-- C2: a `ToolConfig` describing guest export `add` under the override
name `custom_add` is not applied by discovery: the config map is keyed by
the config's `name`, the override lookup uses the function name, so the
discovered tool keeps the auto-generated description instead of the
configured one. -/
theorem c2_override_lookup_by_name :
    (analyze_function (load_tool_configs c2_modules) "calcmod" "add"
        sig_i32_i32).map (fun t => t.description)
      = some "Add two numbers using WebAssembly (from module: calcmod)"
    ∧ c2_tool_config.function_name = "add"
    ∧ c2_tool_config.description = some "Custom add description"
    ∧ "Add two numbers using WebAssembly (from module: calcmod)"
        ≠ "Custom add description" := by
  refine ⟨?_, rfl, rfl, by decide⟩
  decide

/-- C5: on the task "download a file from a URL", with all three preparer
families discovered and the guest validator accepting, the emitted
categories are exactly `web_browser` and `file_ops` — `shell_executor` is
absent because no shell keyword occurs in the lowercased task. -/
theorem c5_download_task_categories (tools : List DiscoveredTool)
    (h1 : has_fn tools "prepare_http_get" = true)
    (h2 : has_fn tools "prepare_file_read" = true
        ∨ has_fn tools "prepare_file_write" = true)
    (h3 : has_fn tools "prepare_shell_exec" = true) :
    ∃ cats, handle_recommend (Except.ok 1) tools "download a file from a URL"
        = Except.ok cats
      ∧ cats.map (fun c => c.name) = ["web_browser", "file_ops"] := by
  refine ⟨build_recommendations tools "download a file from a URL", ?_, ?_⟩
  · simp [handle_recommend]
  · have hweb : contains_any (to_lower_ascii "download a file from a URL")
        ["download", "fetch", "http", "https", "url", "get", "retrieve",
         "request"] = true := by decide
    have hfile : contains_any (to_lower_ascii "download a file from a URL")
        ["save", "file", "write", "read", "open", "load", "store"] = true := by
      decide
    have hshell : contains_any (to_lower_ascii "download a file from a URL")
        ["shell", "bash", "command", "execute", "run", "ls", "echo", "cat",
         "wc", "uname", "terminal"] = false := by decide
    unfold build_recommendations
    rcases h2 with h2 | h2 <;>
      simp [h1, h2, h3, hweb, hfile, hshell, web_browser_category,
        file_ops_category]

/-- Witness for C5: the concrete discovered set holding all four preparers
yields exactly the two categories. -/
theorem c5_download_task_witness :
    ∃ cats, handle_recommend (Except.ok 1) c5_tools "download a file from a URL"
        = Except.ok cats
      ∧ cats.map (fun c => c.name) = ["web_browser", "file_ops"] :=
  c5_download_task_categories c5_tools rfl (Or.inl rfl) rfl

end WasmForge
